import Mathlib

set_option autoImplicit false
set_option maxHeartbeats 1000000

/-! Verification of the layout core of print-proxy, a 3x3 MTG proxy PDF
generator. The repository carries two close variants of the same logic:
src/lib.rs (library ProxyPdf / ProxyCsv) and src/main.rs (the CLI binary).
The gen_pdf layout loop is identical in both up to the card-size constants,
so it is embedded once, parameterised by a LayoutConfig holding the constant
block of one variant. The f32 arithmetic on physical sizes is modelled
exactly over the rationals; the spec states its numeric properties as exact
identities up to floating-point tolerance, and every identity proved here
is algebraic, independent of rounding. -/

/-- Pixel dimensions of a decoded image, as exposed by the printpdf
ImageXObject consumed at src/lib.rs lines 92 to 93 (src/main.rs lines 116
to 117). -/
structure Img where
  width : Nat
  height : Nat
deriving DecidableEq

instance : Inhabited Img := ⟨⟨0, 0⟩⟩

/-- The constant block of one implementation variant: src/lib.rs lines 36
to 55 for the library, src/main.rs lines 67 to 80 for the binary. All
lengths are in millimetres, mirroring the MM-suffixed Rust constants. -/
structure LayoutConfig where
  pageHeightMm : ℚ
  pageWidthMm : ℚ
  cardHeightMm : ℚ
  cardWidthMm : ℚ
  dpi : ℚ
  marginBetweenCardsMm : ℚ
deriving DecidableEq

/-- HEIGHT_MARGIN_MM, derived from the other constants by the formula at
src/lib.rs lines 47 to 49 (src/main.rs lines 74 to 76). -/
def LayoutConfig.heightMarginMm (c : LayoutConfig) : ℚ :=
  (c.pageHeightMm - 3 * c.cardHeightMm - 2 * c.marginBetweenCardsMm) / 2

/-- WIDTH_MARGIN_MM, derived from the other constants by the formula at
src/lib.rs lines 50 to 52 (src/main.rs lines 77 to 79). -/
def LayoutConfig.widthMarginMm (c : LayoutConfig) : ℚ :=
  (c.pageWidthMm - 3 * c.cardWidthMm - 2 * c.marginBetweenCardsMm) / 2

/-- The constants of the library variant, src/lib.rs lines 36 to 55: the
cards are undersized by 2 mm on each axis for sleeve fit. -/
def libConfig : LayoutConfig :=
  { pageHeightMm := 279
    pageWidthMm := 210
    cardHeightMm := 86.9
    cardWidthMm := 61.5
    dpi := 300
    marginBetweenCardsMm := 1 }

/-- The constants of the binary variant, src/main.rs lines 67 to 80: full
card size, no undersizing. -/
def mainConfig : LayoutConfig :=
  { pageHeightMm := 279
    pageWidthMm := 210
    cardHeightMm := 88.9
    cardWidthMm := 63.5
    dpi := 300
    marginBetweenCardsMm := 1 }

/-- Millimetres per PDF point: 25.4 mm per inch over 72 points per inch.
Modelled from the spec: the pixel-to-millimetre conversion lives in the
printpdf dependency (Mm::from and Px::into_pt), not under src/; the spec
describes it as converting pixel dimensions to physical length at the
configured density, which this exact ratio realises. Every theorem below
is insensitive to the concrete positive value of this constant. -/
def mmPerPt : ℚ := 127 / 360

/-- Physical size in millimetres of px pixels rendered at the given dots
per inch, as computed at src/lib.rs lines 92 to 93: px pixels make px/dpi
inches, hence px/dpi*72 points, converted to millimetres. -/
def mmFromPx (dpi : ℚ) (px : Nat) : ℚ := ((px : ℚ) / dpi * 72) * mmPerPt

/-- One placement emitted by gen_pdf: the page (0-based index), the grid
cell, and the ImageTransform built at src/lib.rs lines 102 to 119
(src/main.rs lines 126 to 143), together with the pixel size of the source
image being drawn. -/
structure Placement where
  pageIdx : Nat
  row : Nat
  col : Nat
  translateX : ℚ
  translateY : ℚ
  scaleX : ℚ
  scaleY : ℚ
  dpi : ℚ
  imgWidth : Nat
  imgHeight : Nat
deriving DecidableEq

instance : Inhabited Placement := ⟨⟨0, 0, 0, 0, 0, 0, 0, 0, 0, 0⟩⟩

/-- The ImageTransform and add_to_layer call of one loop iteration,
src/lib.rs lines 92 to 119: scale factors divide the card size by the
physical image size, the translation accumulates one card width and one
gutter per column (the source writes the gutter term as
ceil(col32 / 1.) * MARGIN_BETWEEN_CARDS_MM, kept verbatim here via
Int.ceil), plus the derived margin. -/
def mkPlacement (cfg : LayoutConfig) (layer row col : Nat) (img : Img) : Placement :=
  let heightMm := mmFromPx cfg.dpi img.height
  let widthMm := mmFromPx cfg.dpi img.width
  let heightScale := cfg.cardHeightMm / heightMm
  let widthScale := cfg.cardWidthMm / widthMm
  let colCardspace := (Int.ceil ((col : ℚ) / 1) : ℚ) * cfg.marginBetweenCardsMm
  let rowCardspace := (Int.ceil ((row : ℚ) / 1) : ℚ) * cfg.marginBetweenCardsMm
  { pageIdx := layer
    row := row
    col := col
    translateX := (col : ℚ) * cfg.cardWidthMm + colCardspace + cfg.widthMarginMm
    translateY := (row : ℚ) * cfg.cardHeightMm + rowCardspace + cfg.heightMarginMm
    scaleX := widthScale
    scaleY := heightScale
    dpi := cfg.dpi
    imgWidth := img.width
    imgHeight := img.height }

/-- Failure of decoding one image inside the loop: the JpegDecoder or
PngDecoder construction, or the Image conversion, returned Err
(src/lib.rs line 91, src/main.rs lines 149 to 166). -/
inductive DecodeFailure where
  | unsupportedFormat
  | decodeError
deriving DecidableEq

/-- How a gen_pdf call can fail: a decode failure propagated by the
question-mark operator at src/lib.rs line 91, or the expect on
current_layer at src/lib.rs line 105 going off (which claim C9 shows
impossible). -/
inductive GenErr where
  | decode (e : DecodeFailure)
  | expectFailed
deriving DecidableEq

/-- The mutable state of the gen_pdf loop, src/lib.rs lines 72 to 74:
pages_this_doc, cards_this_page, current_layer (the layer handle is
modelled by the 0-based index of the page it belongs to), plus the images
already added to the document through add_to_layer. -/
structure GenState where
  pagesThisDoc : Nat
  cardsThisPage : Nat
  currentLayer : Option Nat
  placements : List Placement
deriving DecidableEq

/-- The counter advance and conditional page creation at the top of each
loop iteration, src/lib.rs lines 77 to 89: advance cards_this_page modulo
9, derive row and col, and on cell (0,0) add a fresh page and point
current_layer at it. -/
def advanceState (st : GenState) : GenState :=
  let cards := (st.cardsThisPage + 1) % 9
  let row := cards / 3
  let col := cards % 3
  if row = 0 ∧ col = 0 then
    { st with
      pagesThisDoc := st.pagesThisDoc + 1
      cardsThisPage := cards
      currentLayer := some st.pagesThisDoc }
  else
    { st with cardsThisPage := cards }

/-- One full iteration of the gen_pdf loop body, src/lib.rs lines 76 to
120: advance the counter and maybe open a page, then decode the image
(an Err exits the call via the question mark), then add the placement to
the current layer, where a missing layer would trip the expect at line
105. -/
def genStep (cfg : LayoutConfig) (st : GenState) (item : Except DecodeFailure Img) :
    GenState × Except GenErr Unit :=
  let cards := (st.cardsThisPage + 1) % 9
  let row := cards / 3
  let col := cards % 3
  let st1 := advanceState st
  match item with
  | Except.error e => (st1, Except.error (GenErr.decode e))
  | Except.ok img =>
    match st1.currentLayer with
    | none => (st1, Except.error GenErr.expectFailed)
    | some layer =>
      ({ st1 with placements := st1.placements ++ [mkPlacement cfg layer row col img] },
        Except.ok ())

/-- The gen_pdf loop, src/lib.rs lines 76 to 120, folded over the input
sequence from a given state: each iterator item is the outcome of decoding
one image (the decoders live outside the loop state), and the first error
aborts the loop, returning the document state reached so far. -/
def genPdfGo (cfg : LayoutConfig) :
    GenState → List (Except DecodeFailure Img) → GenState × Except GenErr Unit
  | st, [] => (st, Except.ok ())
  | st, item :: rest =>
    match genStep cfg st item with
    | (st1, Except.ok _) => genPdfGo cfg st1 rest
    | (st1, Except.error e) => (st1, Except.error e)

/-- ProxyPdf::gen_pdf, src/lib.rs lines 71 to 123 (src/main.rs lines 94
to 147): pages_this_doc starts at 0, cards_this_page starts at 8,
current_layer starts at None, the document starts empty. Returns the
final document state together with the Result value of the call. -/
def gen_pdf (cfg : LayoutConfig) (items : List (Except DecodeFailure Img)) :
    GenState × Except GenErr Unit :=
  genPdfGo cfg { pagesThisDoc := 0, cardsThisPage := 8, currentLayer := none, placements := [] } items

/-- The CsvToPdf branch of main, src/main.rs lines 48 to 57: gen_pdf runs
first and save is reached only when it returned Ok, so the saved file (the
placements of the finished document) exists exactly in that case. -/
def cliCsvToPdf (cfg : LayoutConfig) (items : List (Except DecodeFailure Img)) :
    Option (List Placement) :=
  match gen_pdf cfg items with
  | (st, Except.ok _) => some st.placements
  | (_, Except.error _) => none

/-- The placement gen_pdf emits for the 0-based image index i: page
i / 9, the cell given by i % 9 in row-major order. This is the closed
form proved equal to the loop below. -/
def placementAt (cfg : LayoutConfig) (i : Nat) (img : Img) : Placement :=
  mkPlacement cfg (i / 9) ((i % 9) / 3) ((i % 9) % 3) img

/-- Closed form of the placement list gen_pdf builds for a run of
successfully decoded images starting at image index i. -/
def placementsFrom (cfg : LayoutConfig) : Nat → List Img → List Placement
  | _, [] => []
  | i, img :: rest => placementAt cfg i img :: placementsFrom cfg (i + 1) rest

/-- Closed form of the loop state after i images have been processed
successfully: pages and counter follow i, and the current layer is the
page of the most recent image. -/
def stateAt (i : Nat) (pl : List Placement) : GenState :=
  { pagesThisDoc := (i + 8) / 9
    cardsThisPage := (i + 8) % 9
    currentLayer := if i = 0 then none else some ((i - 1) / 9)
    placements := pl }

/-- The image formats the image crate can report from a signature guess.
The Rust match at src/main.rs lines 159 to 165 names Jpeg and Png and
catches every other reported format in a wildcard arm; the remaining crate
formats are collapsed into representative constructors here. -/
inductive GuessedFormat where
  | jpeg
  | png
  | gif
  | bmp
  | other
deriving DecidableEq

/-- The failure cases of ProxyPdf::make_image, src/main.rs lines 149 to
166: the format guess recognised no signature at all (line 157), the
guessed format is neither Jpeg nor Png (the bail at line 163), or the
matching decoder failed on the buffer (the question marks at lines 160
and 161). -/
inductive MakeImageErr where
  | formatUndetected
  | unsupportedFormat (fmt : GuessedFormat)
  | decodeFailed
deriving DecidableEq

/-- Whether a make_image failure is of the unsupported-format kind (the
signature matched no supported codec) as opposed to the decode-failure
kind (a supported codec rejected the buffer). -/
def MakeImageErr.isUnsupportedKind : MakeImageErr → Bool
  | MakeImageErr.formatUndetected => true
  | MakeImageErr.unsupportedFormat _ => true
  | MakeImageErr.decodeFailed => false

/-- ProxyPdf::make_image, src/main.rs lines 149 to 166. The buffer is a
byte list; the signature guess of ImageReader::with_guessed_format and the
two decoders of the image crate are external dependency code, passed in as
oracle functions (a decoder returns the decoded pixel dimensions, or none
on a decode failure). The match mirrors lines 159 to 165: Jpeg and Png go
to their decoders, an unrecognised signature or any other format fails. -/
def make_image (guessFormat : List Nat → Option GuessedFormat)
    (jpegDecode pngDecode : List Nat → Option Img) (bytes : List Nat) :
    Except MakeImageErr Img :=
  match guessFormat bytes with
  | none => Except.error MakeImageErr.formatUndetected
  | some GuessedFormat.jpeg =>
    match jpegDecode bytes with
    | none => Except.error MakeImageErr.decodeFailed
    | some img => Except.ok img
  | some GuessedFormat.png =>
    match pngDecode bytes with
    | none => Except.error MakeImageErr.decodeFailed
    | some img => Except.ok img
  | some fmt => Except.error (MakeImageErr.unsupportedFormat fmt)

/-- Outcome of the blocking HTTP fetch for one CSV row inside
iter_csv_images, src/lib.rs lines 205 to 216: the request itself can fail,
or a response arrives carrying a status (success or not) and a body whose
byte download can itself fail (body = none). -/
inductive FetchOutcome where
  | err
  | resp (statusSuccess : Bool) (body : Option (List Nat))
deriving DecidableEq

/-- Outcome of deserialising one CSV record into a DeckCsvRow, src/lib.rs
lines 200 to 203, paired with the fetch outcome its image_url produces:
the row is malformed, or it parses with a count and its fetch outcome. -/
inductive CsvRowResult where
  | malformed
  | row (count : Nat) (fetch : FetchOutcome)
deriving DecidableEq

/-- The closure passed to map_while in iter_csv_images, src/lib.rs lines
200 to 219: a malformed row, a failed fetch, a non-success status, or a
failed body download all yield none; otherwise the row yields count copies
of the downloaded bytes. -/
def row_to_images : CsvRowResult → Option (List (List Nat))
  | CsvRowResult.malformed => none
  | CsvRowResult.row _ FetchOutcome.err => none
  | CsvRowResult.row count (FetchOutcome.resp statusSuccess body) =>
    if !statusSuccess then none
    else
      match body with
      | none => none
      | some bytes => some (List.replicate count bytes)

/-- Rust Iterator::map_while: yields f a for each element while f returns
Some, and ends the whole iteration at the first element where f returns
none. -/
def map_while {α β : Type} (f : α → Option β) : List α → List β
  | [] => []
  | a :: rest =>
    match f a with
    | none => []
    | some b => b :: map_while f rest

/-- ProxyCsv::iter_csv_images, src/lib.rs lines 195 to 222 (src/main.rs
lines 232 to 259): map_while over the deserialised rows followed by
flatten, yielding one byte buffer per card copy. -/
def iter_csv_images (rows : List CsvRowResult) : List (List Nat) :=
  (map_while row_to_images rows).flatten

lemma ceil_natCast_div_one (n : Nat) : (Int.ceil ((n : ℚ) / 1) : ℚ) = (n : ℚ) := by
  rw [div_one]
  simp

lemma advanceState_placements (st : GenState) :
    (advanceState st).placements = st.placements := by
  simp only [advanceState]
  split <;> rfl

lemma advanceState_pages_le (st : GenState) :
    st.pagesThisDoc ≤ (advanceState st).pagesThisDoc := by
  simp only [advanceState]
  split <;> simp

lemma advanceState_stateAt (i : Nat) (pl : List Placement) :
    advanceState (stateAt i pl) = stateAt (i + 1) pl := by
  by_cases h : i % 9 = 0
  · have hcond : ((i + 8) % 9 + 1) % 9 / 3 = 0 ∧ ((i + 8) % 9 + 1) % 9 % 3 = 0 := by omega
    simp only [advanceState, stateAt, if_pos hcond]
    rw [if_neg (show ¬(i + 1 = 0) by omega)]
    have p1 : (i + 8) / 9 + 1 = (i + 1 + 8) / 9 := by omega
    have p2 : ((i + 8) % 9 + 1) % 9 = (i + 1 + 8) % 9 := by omega
    have p3 : (i + 8) / 9 = (i + 1 - 1) / 9 := by omega
    rw [p1, p2, p3]
  · have hcond : ¬(((i + 8) % 9 + 1) % 9 / 3 = 0 ∧ ((i + 8) % 9 + 1) % 9 % 3 = 0) := by omega
    simp only [advanceState, stateAt, if_neg hcond]
    rw [if_neg (show ¬(i = 0) by omega), if_neg (show ¬(i + 1 = 0) by omega)]
    have p1 : (i + 8) / 9 = (i + 1 + 8) / 9 := by omega
    have p2 : ((i + 8) % 9 + 1) % 9 = (i + 1 + 8) % 9 := by omega
    have p3 : (i - 1) / 9 = (i + 1 - 1) / 9 := by omega
    rw [p1, p2, p3]

lemma genStep_error (cfg : LayoutConfig) (st : GenState) (e : DecodeFailure) :
    genStep cfg st (Except.error e) = (advanceState st, Except.error (GenErr.decode e)) := rfl

lemma stateAt_currentLayer_succ (i : Nat) (pl : List Placement) :
    (stateAt (i + 1) pl).currentLayer = some (i / 9) := by
  simp only [stateAt]
  rw [if_neg (show ¬(i + 1 = 0) by omega)]
  simp only [Option.some.injEq]
  omega

lemma genStep_ok_stateAt (cfg : LayoutConfig) (i : Nat) (pl : List Placement) (img : Img) :
    genStep cfg (stateAt i pl) (Except.ok img)
      = (stateAt (i + 1) (pl ++ [placementAt cfg i img]), Except.ok ()) := by
  have hc : ((stateAt i pl).cardsThisPage + 1) % 9 = i % 9 := by
    simp only [stateAt]
    omega
  simp only [genStep, advanceState_stateAt, hc, stateAt_currentLayer_succ]
  simp only [placementAt, stateAt, Nat.add_sub_cancel]
  rw [if_neg (show ¬(i + 1 = 0) by omega)]

lemma genPdfGo_ok_stateAt (cfg : LayoutConfig) :
    ∀ (imgs : List Img) (i : Nat) (pl : List Placement),
      genPdfGo cfg (stateAt i pl) (imgs.map Except.ok)
        = (stateAt (i + imgs.length) (pl ++ placementsFrom cfg i imgs), Except.ok ())
  | [], i, pl => by simp [genPdfGo, placementsFrom]
  | img :: rest, i, pl => by
    rw [List.map_cons]
    simp only [genPdfGo, genStep_ok_stateAt]
    rw [genPdfGo_ok_stateAt cfg rest (i + 1) (pl ++ [placementAt cfg i img])]
    simp only [placementsFrom, List.append_assoc, List.singleton_append, List.length_cons]
    have hlen : i + 1 + rest.length = i + (rest.length + 1) := by omega
    rw [hlen]

lemma stateAt_zero : stateAt 0 []
    = { pagesThisDoc := 0, cardsThisPage := 8, currentLayer := none, placements := [] } := by
  simp [stateAt]

lemma gen_pdf_ok_eq (cfg : LayoutConfig) (imgs : List Img) :
    gen_pdf cfg (imgs.map Except.ok)
      = (stateAt imgs.length (placementsFrom cfg 0 imgs), Except.ok ()) := by
  rw [gen_pdf, ← stateAt_zero, genPdfGo_ok_stateAt cfg imgs 0 []]
  simp

lemma placementsFrom_length (cfg : LayoutConfig) :
    ∀ (imgs : List Img) (i : Nat), (placementsFrom cfg i imgs).length = imgs.length
  | [], _ => rfl
  | _ :: rest, i => by
    simp [placementsFrom, placementsFrom_length cfg rest (i + 1)]

lemma placementsFrom_getD (cfg : LayoutConfig) :
    ∀ (imgs : List Img) (i j : Nat), j < imgs.length →
      (placementsFrom cfg i imgs).getD j default = placementAt cfg (i + j) (imgs.getD j default)
  | [], _, j, h => by simp at h
  | img :: rest, i, 0, _ => by simp [placementsFrom]
  | img :: rest, i, j + 1, h => by
    simp only [placementsFrom, List.getD_cons_succ]
    rw [placementsFrom_getD cfg rest (i + 1) j (by simpa using h)]
    have : i + 1 + j = i + (j + 1) := by omega
    rw [this]

lemma mem_placementsFrom (cfg : LayoutConfig) :
    ∀ (imgs : List Img) (i : Nat) (p : Placement), p ∈ placementsFrom cfg i imgs →
      ∃ j, j < imgs.length ∧ p = placementAt cfg (i + j) (imgs.getD j default)
  | [], _, p, h => by simp [placementsFrom] at h
  | img :: rest, i, p, h => by
    rcases List.mem_cons.mp h with h1 | h2
    · exact ⟨0, by simp, by simpa using h1⟩
    · obtain ⟨j, hj, hp⟩ := mem_placementsFrom cfg rest (i + 1) p h2
      refine ⟨j + 1, by simpa using hj, ?_⟩
      have : i + 1 + j = i + (j + 1) := by omega
      rw [← this]
      simpa using hp

lemma genPdfGo_error_cons (cfg : LayoutConfig) (st : GenState) (e : DecodeFailure)
    (rest : List (Except DecodeFailure Img)) :
    genPdfGo cfg st (Except.error e :: rest)
      = (advanceState st, Except.error (GenErr.decode e)) := by
  simp [genPdfGo, genStep_error]

lemma genPdfGo_append (cfg : LayoutConfig) :
    ∀ (xs ys : List (Except DecodeFailure Img)) (st : GenState),
      genPdfGo cfg st (xs ++ ys)
        = match genPdfGo cfg st xs with
          | (st1, Except.ok _) => genPdfGo cfg st1 ys
          | (st1, Except.error err) => (st1, Except.error err)
  | [], ys, st => by simp [genPdfGo]
  | x :: xs, ys, st => by
    rw [List.cons_append]
    simp only [genPdfGo]
    rcases h : genStep cfg st x with ⟨st1, r⟩
    rcases r with err | u
    · simp
    · exact genPdfGo_append cfg xs ys st1

lemma gen_pdf_error_after (cfg : LayoutConfig) (imgs : List Img) (e : DecodeFailure)
    (rest : List (Except DecodeFailure Img)) :
    gen_pdf cfg (imgs.map Except.ok ++ Except.error e :: rest)
      = (advanceState (stateAt imgs.length (placementsFrom cfg 0 imgs)),
          Except.error (GenErr.decode e)) := by
  rw [gen_pdf, ← stateAt_zero,
    genPdfGo_append cfg (imgs.map Except.ok) (Except.error e :: rest) (stateAt 0 []),
    genPdfGo_ok_stateAt cfg imgs 0 []]
  simp [genPdfGo_error_cons]

lemma advanceState_currentLayer_ne (st : GenState)
    (h : st.currentLayer = none → st.cardsThisPage = 8) :
    (advanceState st).currentLayer ≠ none := by
  simp only [advanceState]
  split
  next => simp
  next hc =>
    intro hnone
    simp only at hnone
    have h8 := h hnone
    exact hc ⟨by omega, by omega⟩

lemma genPdfGo_ne_expectFailed (cfg : LayoutConfig) :
    ∀ (items : List (Except DecodeFailure Img)) (st : GenState),
      (st.currentLayer = none → st.cardsThisPage = 8) →
      (genPdfGo cfg st items).2 ≠ Except.error GenErr.expectFailed
  | [], st, _ => by simp [genPdfGo]
  | item :: rest, st, h => by
    rcases item with e | img
    · rw [genPdfGo_error_cons]
      simp
    · have hl := advanceState_currentLayer_ne st h
      rcases hl2 : (advanceState st).currentLayer with _ | l
      · exact absurd hl2 hl
      · simp only [genPdfGo, genStep, hl2]
        exact genPdfGo_ne_expectFailed cfg rest _ (by intro hx; simp at hx)

lemma genStep_pages_le (cfg : LayoutConfig) (st : GenState) (item : Except DecodeFailure Img) :
    st.pagesThisDoc ≤ ((genStep cfg st item).1).pagesThisDoc := by
  rcases item with e | img
  · rw [genStep_error]
    exact advanceState_pages_le st
  · rcases hl : (advanceState st).currentLayer with _ | l
    · simp only [genStep, hl]
      exact advanceState_pages_le st
    · simp only [genStep, hl]
      exact advanceState_pages_le st

lemma genPdfGo_pages_le (cfg : LayoutConfig) :
    ∀ (items : List (Except DecodeFailure Img)) (st : GenState),
      st.pagesThisDoc ≤ ((genPdfGo cfg st items).1).pagesThisDoc
  | [], st => le_refl _
  | item :: rest, st => by
    simp only [genPdfGo]
    rcases h : genStep cfg st item with ⟨st1, r⟩
    have h1 : st.pagesThisDoc ≤ st1.pagesThisDoc := by
      have h2 := genStep_pages_le cfg st item
      rw [h] at h2
      exact h2
    rcases r with err | u
    · simpa using h1
    · exact le_trans h1 (genPdfGo_pages_le cfg rest st1)

lemma mmFromPx_pos (dpi : ℚ) (px : Nat) (hdpi : 0 < dpi) (hpx : 0 < px) :
    0 < mmFromPx dpi px := by
  have hq : (0 : ℚ) < (px : ℚ) := by exact_mod_cast hpx
  unfold mmFromPx mmPerPt
  positivity

lemma mkPlacement_translate (cfg : LayoutConfig) (layer row col : Nat) (img : Img) :
    (mkPlacement cfg layer row col img).translateX
      = (col : ℚ) * cfg.cardWidthMm + (col : ℚ) * cfg.marginBetweenCardsMm + cfg.widthMarginMm
    ∧ (mkPlacement cfg layer row col img).translateY
      = (row : ℚ) * cfg.cardHeightMm + (row : ℚ) * cfg.marginBetweenCardsMm
        + cfg.heightMarginMm := by
  simp only [mkPlacement]
  exact ⟨by rw [ceil_natCast_div_one], by rw [ceil_natCast_div_one]⟩

lemma placementAt_col (cfg : LayoutConfig) (i : Nat) (img : Img) :
    (placementAt cfg i img).col = (i % 9) % 3 := rfl

lemma placementAt_row (cfg : LayoutConfig) (i : Nat) (img : Img) :
    (placementAt cfg i img).row = (i % 9) / 3 := rfl

lemma placementAt_translateX (cfg : LayoutConfig) (i : Nat) (img : Img) :
    (placementAt cfg i img).translateX
      = (((i % 9) % 3 : Nat) : ℚ) * cfg.cardWidthMm
        + (((i % 9) % 3 : Nat) : ℚ) * cfg.marginBetweenCardsMm + cfg.widthMarginMm :=
  (mkPlacement_translate cfg (i / 9) ((i % 9) / 3) ((i % 9) % 3) img).1

lemma placementAt_translateY (cfg : LayoutConfig) (i : Nat) (img : Img) :
    (placementAt cfg i img).translateY
      = (((i % 9) / 3 : Nat) : ℚ) * cfg.cardHeightMm
        + (((i % 9) / 3 : Nat) : ℚ) * cfg.marginBetweenCardsMm + cfg.heightMarginMm :=
  (mkPlacement_translate cfg (i / 9) ((i % 9) / 3) ((i % 9) % 3) img).2

/-- Claim C1: for every input sequence of images consumed by gen_pdf and
every 0-based image index i, the image is placed on page i / 9, in row
(i % 9) / 3 and column (i % 9) % 3 of that page; the cell counter starts
so that the first image maps to cell 0 and advances by one modulo 9 per
image with no gaps or reordering, witnessed by the placement list carrying
exactly one entry per input image, in input order. -/
theorem C1_cell_mapping (cfg : LayoutConfig) (imgs : List Img) (i : Nat)
    (hi : i < imgs.length) :
    (((gen_pdf cfg (imgs.map Except.ok)).1.placements.getD i default).pageIdx = i / 9
      ∧ ((gen_pdf cfg (imgs.map Except.ok)).1.placements.getD i default).row = (i % 9) / 3
      ∧ ((gen_pdf cfg (imgs.map Except.ok)).1.placements.getD i default).col = (i % 9) % 3)
    ∧ (gen_pdf cfg (imgs.map Except.ok)).1.placements.length = imgs.length := by
  rw [gen_pdf_ok_eq]
  simp only [stateAt]
  refine ⟨⟨?_, ?_, ?_⟩, placementsFrom_length cfg imgs 0⟩ <;>
    rw [placementsFrom_getD cfg imgs 0 i hi] <;>
    simp [placementAt, mkPlacement]

/-- A concrete ten image input used to instantiate the layout theorems:
the spec names the ten image scenario spilling onto a second page. -/
def imgs10 : List Img := List.replicate 10 ⟨2, 3⟩

theorem C1_cell_mapping_witness :
    (((gen_pdf libConfig (imgs10.map Except.ok)).1.placements.getD 9 default).pageIdx = 9 / 9
      ∧ ((gen_pdf libConfig (imgs10.map Except.ok)).1.placements.getD 9 default).row = 9 % 9 / 3
      ∧ ((gen_pdf libConfig (imgs10.map Except.ok)).1.placements.getD 9 default).col = 9 % 9 % 3)
    ∧ (gen_pdf libConfig (imgs10.map Except.ok)).1.placements.length = imgs10.length :=
  C1_cell_mapping libConfig imgs10 9 (by simp [imgs10])

/-- Claim C2: for every decodable input image with positive pixel
dimensions, the placement emitted by gen_pdf uses scaleX dividing the card
width by the physical image width and scaleY dividing the card height by
the physical image height, so the drawn size is exactly the configured
card size on both axes regardless of the source pixel size: the stretch is
anisotropic and absorbs all variance. -/
theorem C2_exact_stretch (cfg : LayoutConfig) (imgs : List Img) (p : Placement)
    (hdpi : 0 < cfg.dpi)
    (hp : p ∈ (gen_pdf cfg (imgs.map Except.ok)).1.placements)
    (hw : 0 < p.imgWidth) (hh : 0 < p.imgHeight) :
    p.scaleX = cfg.cardWidthMm / mmFromPx cfg.dpi p.imgWidth
    ∧ p.scaleY = cfg.cardHeightMm / mmFromPx cfg.dpi p.imgHeight
    ∧ p.scaleX * mmFromPx cfg.dpi p.imgWidth = cfg.cardWidthMm
    ∧ p.scaleY * mmFromPx cfg.dpi p.imgHeight = cfg.cardHeightMm := by
  rw [gen_pdf_ok_eq] at hp
  simp only [stateAt] at hp
  obtain ⟨j, hj, rfl⟩ := mem_placementsFrom cfg imgs 0 p hp
  have hw2 : 0 < (imgs.getD j default).width := hw
  have hh2 : 0 < (imgs.getD j default).height := hh
  refine ⟨rfl, rfl, ?_, ?_⟩
  · show cfg.cardWidthMm / mmFromPx cfg.dpi (imgs.getD j default).width
        * mmFromPx cfg.dpi (imgs.getD j default).width = cfg.cardWidthMm
    exact div_mul_cancel₀ _ (ne_of_gt (mmFromPx_pos cfg.dpi _ hdpi hw2))
  · show cfg.cardHeightMm / mmFromPx cfg.dpi (imgs.getD j default).height
        * mmFromPx cfg.dpi (imgs.getD j default).height = cfg.cardHeightMm
    exact div_mul_cancel₀ _ (ne_of_gt (mmFromPx_pos cfg.dpi _ hdpi hh2))

theorem C2_exact_stretch_witness :
    (placementAt libConfig 0 ⟨100, 100⟩).scaleX
        = libConfig.cardWidthMm
          / mmFromPx libConfig.dpi (placementAt libConfig 0 ⟨100, 100⟩).imgWidth
    ∧ (placementAt libConfig 0 ⟨100, 100⟩).scaleY
        = libConfig.cardHeightMm
          / mmFromPx libConfig.dpi (placementAt libConfig 0 ⟨100, 100⟩).imgHeight
    ∧ (placementAt libConfig 0 ⟨100, 100⟩).scaleX
          * mmFromPx libConfig.dpi (placementAt libConfig 0 ⟨100, 100⟩).imgWidth
        = libConfig.cardWidthMm
    ∧ (placementAt libConfig 0 ⟨100, 100⟩).scaleY
          * mmFromPx libConfig.dpi (placementAt libConfig 0 ⟨100, 100⟩).imgHeight
        = libConfig.cardHeightMm :=
  C2_exact_stretch libConfig [⟨100, 100⟩] (placementAt libConfig 0 ⟨100, 100⟩)
    (by norm_num [libConfig])
    (by rw [gen_pdf_ok_eq]; simp [stateAt, placementsFrom])
    (by norm_num [placementAt, mkPlacement])
    (by norm_num [placementAt, mkPlacement])

/-- Claim C3: when every image decodes, gen_pdf returns success and the
page count is the ceiling of N / 9 (zero pages for an empty input, which
is a success, not an error). In natural numbers the ceiling of N / 9 is
(N + 8) / 9, pinned down by the two bounds stated alongside. -/
theorem C3_page_count (cfg : LayoutConfig) (imgs : List Img) :
    (gen_pdf cfg (imgs.map Except.ok)).1.pagesThisDoc = (imgs.length + 8) / 9
    ∧ imgs.length ≤ 9 * ((imgs.length + 8) / 9)
    ∧ 9 * ((imgs.length + 8) / 9) < imgs.length + 9
    ∧ (gen_pdf cfg (imgs.map Except.ok)).2 = Except.ok ()
    ∧ (gen_pdf cfg []).1.pagesThisDoc = 0
    ∧ (gen_pdf cfg []).2 = Except.ok () := by
  refine ⟨?_, ?_, ?_, ?_, ?_, ?_⟩
  · rw [gen_pdf_ok_eq]
    simp [stateAt]
  · omega
  · omega
  · rw [gen_pdf_ok_eq]
  · rfl
  · rfl

/-- Claim C5: the side margins are derived from the page, card and gutter
constants by the centering formula, the identity recovering the page size
from three cards, two gutters and two margins holds exactly for every
configuration, and for the configured constants of both implementation
variants both margins are non-negative. -/
theorem C5_margins :
    (∀ cfg : LayoutConfig,
      3 * cfg.cardWidthMm + 2 * cfg.marginBetweenCardsMm + 2 * cfg.widthMarginMm
          = cfg.pageWidthMm
      ∧ 3 * cfg.cardHeightMm + 2 * cfg.marginBetweenCardsMm + 2 * cfg.heightMarginMm
          = cfg.pageHeightMm)
    ∧ 0 ≤ libConfig.widthMarginMm ∧ 0 ≤ libConfig.heightMarginMm
    ∧ 0 ≤ mainConfig.widthMarginMm ∧ 0 ≤ mainConfig.heightMarginMm := by
  refine ⟨fun cfg => ⟨?_, ?_⟩, ?_, ?_, ?_, ?_⟩
  · unfold LayoutConfig.widthMarginMm
    ring
  · unfold LayoutConfig.heightMarginMm
    ring
  · norm_num [libConfig, LayoutConfig.widthMarginMm]
  · norm_num [libConfig, LayoutConfig.heightMarginMm]
  · norm_num [mainConfig, LayoutConfig.widthMarginMm]
  · norm_num [mainConfig, LayoutConfig.heightMarginMm]

/-- Claim C4: every placement emitted by gen_pdf sits at the offset
given by column times card width plus column times gutter plus the derived
width margin (and the analogous formula for the vertical offset), with the
gutter accumulating linearly in the row and column index; consequently any
two placements in the same cell, on any pages and for any source image
sizes, share the same offsets. -/
theorem C4_offsets (cfg : LayoutConfig) (imgs : List Img) (p q : Placement)
    (hp : p ∈ (gen_pdf cfg (imgs.map Except.ok)).1.placements)
    (hq : q ∈ (gen_pdf cfg (imgs.map Except.ok)).1.placements) :
    p.translateX = (p.col : ℚ) * cfg.cardWidthMm + (p.col : ℚ) * cfg.marginBetweenCardsMm
        + cfg.widthMarginMm
    ∧ p.translateY = (p.row : ℚ) * cfg.cardHeightMm + (p.row : ℚ) * cfg.marginBetweenCardsMm
        + cfg.heightMarginMm
    ∧ (q.row = p.row → q.col = p.col →
        q.translateX = p.translateX ∧ q.translateY = p.translateY) := by
  rw [gen_pdf_ok_eq] at hp hq
  simp only [stateAt] at hp hq
  obtain ⟨j, hj, rfl⟩ := mem_placementsFrom cfg imgs 0 p hp
  obtain ⟨k, hk, rfl⟩ := mem_placementsFrom cfg imgs 0 q hq
  refine ⟨?_, ?_, ?_⟩
  · rw [placementAt_translateX, placementAt_col]
  · rw [placementAt_translateY, placementAt_row]
  · intro hr hc
    rw [placementAt_col, placementAt_col] at hc
    rw [placementAt_row, placementAt_row] at hr
    constructor
    · rw [placementAt_translateX, placementAt_translateX, hc]
    · rw [placementAt_translateY, placementAt_translateY, hr]

theorem C4_offsets_witness :
    (placementAt libConfig 0 ⟨2, 3⟩).translateX
        = ((placementAt libConfig 0 ⟨2, 3⟩).col : ℚ) * libConfig.cardWidthMm
          + ((placementAt libConfig 0 ⟨2, 3⟩).col : ℚ) * libConfig.marginBetweenCardsMm
          + libConfig.widthMarginMm
    ∧ (placementAt libConfig 0 ⟨2, 3⟩).translateY
        = ((placementAt libConfig 0 ⟨2, 3⟩).row : ℚ) * libConfig.cardHeightMm
          + ((placementAt libConfig 0 ⟨2, 3⟩).row : ℚ) * libConfig.marginBetweenCardsMm
          + libConfig.heightMarginMm
    ∧ ((placementAt libConfig 0 ⟨2, 3⟩).row = (placementAt libConfig 0 ⟨2, 3⟩).row →
        (placementAt libConfig 0 ⟨2, 3⟩).col = (placementAt libConfig 0 ⟨2, 3⟩).col →
        (placementAt libConfig 0 ⟨2, 3⟩).translateX = (placementAt libConfig 0 ⟨2, 3⟩).translateX
        ∧ (placementAt libConfig 0 ⟨2, 3⟩).translateY
            = (placementAt libConfig 0 ⟨2, 3⟩).translateY) :=
  C4_offsets libConfig [⟨2, 3⟩] (placementAt libConfig 0 ⟨2, 3⟩) (placementAt libConfig 0 ⟨2, 3⟩)
    (by rw [gen_pdf_ok_eq]; simp [stateAt, placementsFrom])
    (by rw [gen_pdf_ok_eq]; simp [stateAt, placementsFrom])

/-- Claim C6: a decode failure anywhere in the input makes gen_pdf return
that error, placing none of the subsequent images (the placements are
exactly those of the successful run on the preceding images), and the CLI
pipeline then never reaches save, so no output file is written; in
particular an undecodable first element already fails the call. -/
theorem C6_abort_on_decode_error (cfg : LayoutConfig) (imgs : List Img) (e : DecodeFailure)
    (rest : List (Except DecodeFailure Img)) :
    (gen_pdf cfg (imgs.map Except.ok ++ Except.error e :: rest)).2
        = Except.error (GenErr.decode e)
    ∧ (gen_pdf cfg (imgs.map Except.ok ++ Except.error e :: rest)).1.placements
        = placementsFrom cfg 0 imgs
    ∧ cliCsvToPdf cfg (imgs.map Except.ok ++ Except.error e :: rest) = none
    ∧ (gen_pdf cfg (Except.error e :: rest)).2 = Except.error (GenErr.decode e) := by
  have h := gen_pdf_error_after cfg imgs e rest
  refine ⟨by rw [h], ?_, ?_, ?_⟩
  · rw [h]
    show (advanceState (stateAt imgs.length (placementsFrom cfg 0 imgs))).placements = _
    rw [advanceState_placements]
    rfl
  · unfold cliCsvToPdf
    rw [h]
  · have h0 := gen_pdf_error_after cfg [] e rest
    rw [show ([] : List Img).map Except.ok ++ Except.error e :: rest
        = Except.error e :: rest from rfl] at h0
    rw [h0]

/-- Claim C9: the expect on current_layer can never panic: gen_pdf never
returns the expect failure for any input, because the counter starts in
the state that forces page creation on the first iteration; accordingly a
non-empty input always has at least one page created already during its
first iteration. -/
theorem C9_expect_never_panics (cfg : LayoutConfig) (items : List (Except DecodeFailure Img))
    (item : Except DecodeFailure Img) (rest : List (Except DecodeFailure Img)) :
    (gen_pdf cfg items).2 ≠ Except.error GenErr.expectFailed
    ∧ 1 ≤ (gen_pdf cfg (item :: rest)).1.pagesThisDoc := by
  constructor
  · exact genPdfGo_ne_expectFailed cfg items _ (fun _ => rfl)
  · have ha : advanceState ⟨0, 8, none, []⟩ = ⟨1, 0, some 0, []⟩ := by
      simp [advanceState]
    rcases item with e | img
    · rw [gen_pdf, genPdfGo_error_cons, ha]
    · rw [gen_pdf]
      simp only [genPdfGo, genStep, ha]
      exact genPdfGo_pages_le cfg rest
        ⟨1, 0, some 0, [] ++ [mkPlacement cfg 0 ((8 + 1) % 9 / 3) ((8 + 1) % 9 % 3) img]⟩

/-- Claim C10: gen_pdf is not atomic on the document state: when the input
fails at an index past a non-empty successful run, the call errors but the
document keeps every placement of the successful run and at least as many
pages; only the caller ordering (save strictly after a successful gen_pdf)
prevents a partial file. -/
theorem C10_no_rollback (cfg : LayoutConfig) (imgs : List Img) (e : DecodeFailure)
    (rest : List (Except DecodeFailure Img)) (_hne : imgs ≠ []) :
    (∃ err, (gen_pdf cfg (imgs.map Except.ok ++ Except.error e :: rest)).2 = Except.error err)
    ∧ (gen_pdf cfg (imgs.map Except.ok ++ Except.error e :: rest)).1.placements
        = (gen_pdf cfg (imgs.map Except.ok)).1.placements
    ∧ (gen_pdf cfg (imgs.map Except.ok)).1.pagesThisDoc
        ≤ (gen_pdf cfg (imgs.map Except.ok ++ Except.error e :: rest)).1.pagesThisDoc
    ∧ cliCsvToPdf cfg (imgs.map Except.ok ++ Except.error e :: rest) = none := by
  have h := gen_pdf_error_after cfg imgs e rest
  refine ⟨⟨GenErr.decode e, by rw [h]⟩, ?_, ?_, ?_⟩
  · rw [h, gen_pdf_ok_eq]
    show (advanceState (stateAt imgs.length (placementsFrom cfg 0 imgs))).placements = _
    rw [advanceState_placements]
  · rw [h, gen_pdf_ok_eq]
    exact advanceState_pages_le _
  · unfold cliCsvToPdf
    rw [h]

theorem C10_no_rollback_witness :
    (∃ err, (gen_pdf libConfig
        ([(⟨2, 3⟩ : Img)].map Except.ok ++ Except.error DecodeFailure.decodeError :: [])).2
          = Except.error err)
    ∧ (gen_pdf libConfig
        ([(⟨2, 3⟩ : Img)].map Except.ok ++ Except.error DecodeFailure.decodeError :: [])).1.placements
        = (gen_pdf libConfig ([(⟨2, 3⟩ : Img)].map Except.ok)).1.placements
    ∧ (gen_pdf libConfig ([(⟨2, 3⟩ : Img)].map Except.ok)).1.pagesThisDoc
        ≤ (gen_pdf libConfig
            ([(⟨2, 3⟩ : Img)].map Except.ok ++ Except.error DecodeFailure.decodeError :: [])).1.pagesThisDoc
    ∧ cliCsvToPdf libConfig
        ([(⟨2, 3⟩ : Img)].map Except.ok ++ Except.error DecodeFailure.decodeError :: []) = none :=
  C10_no_rollback libConfig [⟨2, 3⟩] DecodeFailure.decodeError [] (by simp)

/-- Claim C7: make_image accepts exactly the two supported codecs: it
succeeds exactly when the guessed signature is Jpeg and the jpeg decoder
succeeds, or Png and the png decoder succeeds; when the signature matches
no supported codec the failure is of the unsupported-format kind, when a
supported codec fails to decode the failure is the decode-failure kind,
and the two kinds are distinguishable in the result. -/
theorem C7_two_codecs (guessFormat : List Nat → Option GuessedFormat)
    (jpegDecode pngDecode : List Nat → Option Img) (bytes : List Nat) :
    ((∃ img, make_image guessFormat jpegDecode pngDecode bytes = Except.ok img) ↔
      ((guessFormat bytes = some GuessedFormat.jpeg ∧ (jpegDecode bytes).isSome = true)
        ∨ (guessFormat bytes = some GuessedFormat.png ∧ (pngDecode bytes).isSome = true)))
    ∧ (guessFormat bytes ≠ some GuessedFormat.jpeg → guessFormat bytes ≠ some GuessedFormat.png →
        ∃ err, make_image guessFormat jpegDecode pngDecode bytes = Except.error err
          ∧ err.isUnsupportedKind = true)
    ∧ (guessFormat bytes = some GuessedFormat.jpeg → jpegDecode bytes = none →
        make_image guessFormat jpegDecode pngDecode bytes
          = Except.error MakeImageErr.decodeFailed)
    ∧ (guessFormat bytes = some GuessedFormat.png → pngDecode bytes = none →
        make_image guessFormat jpegDecode pngDecode bytes
          = Except.error MakeImageErr.decodeFailed)
    ∧ MakeImageErr.decodeFailed.isUnsupportedKind = false := by
  unfold make_image
  rcases hg : guessFormat bytes with _ | fmt
  · simp [MakeImageErr.isUnsupportedKind]
  · rcases fmt <;>
      rcases hj : jpegDecode bytes with _ | img1 <;>
      rcases hpn : pngDecode bytes with _ | img2 <;>
      simp [MakeImageErr.isUnsupportedKind, hj, hpn]

theorem C7_two_codecs_witness :
    make_image (fun _ => some GuessedFormat.jpeg) (fun _ => none) (fun _ => none) []
      = Except.error MakeImageErr.decodeFailed :=
  (C7_two_codecs (fun _ => some GuessedFormat.jpeg) (fun _ => none) (fun _ => none) []).2.2.1
    rfl rfl

/-- Claim C8 counterexample: iter_csv_images does not skip a failing row
and continue. A valid row alone yields its image, but placed after a
malformed row it yields nothing: the map_while at src/lib.rs line 200 ends
the whole sequence at the first failing row. -/
theorem C8_skip_and_continue_cex :
    iter_csv_images [CsvRowResult.malformed,
        CsvRowResult.row 1 (FetchOutcome.resp true (some [7]))] = []
    ∧ iter_csv_images [CsvRowResult.row 1 (FetchOutcome.resp true (some [7]))] = [[7]] := by
  constructor <;> rfl

/-- Claim C8, amended: a per-item failure in iter_csv_images (malformed
CSV row, failed fetch, non-success status, or failed body download) ends
the whole sequence at that row: the output is exactly that of the
successful prefix, and rows after the failure contribute nothing. -/
theorem C8_map_while_stops (good : List CsvRowResult)
    (hgood : ∀ r ∈ good, (row_to_images r).isSome = true)
    (bad : CsvRowResult) (hbad : row_to_images bad = none)
    (rest : List CsvRowResult) :
    iter_csv_images (good ++ bad :: rest) = iter_csv_images good := by
  unfold iter_csv_images
  congr 1
  induction good with
  | nil => simp [map_while, hbad]
  | cons r tl ih =>
    have hr := hgood r (by simp)
    rcases ho : row_to_images r with _ | v
    · rw [ho] at hr
      simp at hr
    · simp only [List.cons_append, map_while, ho]
      exact congrArg (v :: ·) (ih (fun x hx => hgood x (by simp [hx])))

theorem C8_map_while_stops_witness :
    iter_csv_images ([CsvRowResult.row 1 (FetchOutcome.resp true (some [7]))]
        ++ CsvRowResult.malformed :: [CsvRowResult.row 2 (FetchOutcome.resp true (some [8]))])
      = iter_csv_images [CsvRowResult.row 1 (FetchOutcome.resp true (some [7]))] :=
  C8_map_while_stops [CsvRowResult.row 1 (FetchOutcome.resp true (some [7]))] (by decide)
    CsvRowResult.malformed (by decide)
    [CsvRowResult.row 2 (FetchOutcome.resp true (some [8]))]
